import Mathlib

/-!
Shallow embedding of the FinSight Streamlit application (src/app.py).

The application is a single script that Streamlit re-runs on every user
interaction. We model one script re-run as a pure step function
`runScript` over an explicit `RunState` that carries:
  - the two `st.session_state` entries (`analysis_result`, `last_file_name`),
  - the `st.cache_data` cache of `extract_text_from_pdf`, keyed by the
    byte content of the uploaded file,
  - the `st.cache_data` cache of `analyze_financial_text_with_gemini`.
    The Python function declares its only parameter as `_text_chunk`;
    Streamlit excludes parameters whose names start with an underscore
    from the cache key, so this cache has a single slot shared by all
    inputs (key = unit), which we model as `Option (Option Json)`,
  - a counter of actual remote Gemini invocations.

External effects are oracles in `Env`: `pdfParse` models
`pdfplumber.open` plus `page.extract_text()` per page (raising is the
`Except.error` case), and `gemini` models `model.generate_content`
followed by `json.loads` for each successive real invocation.
`st.error` / `st.info` calls are collected as a list of `UIMsg`.
-/

namespace FinSight

/-- JSON values, the shape of `json.loads(response.text)`. -/
inductive Json where
  | null : Json
  | bool (b : Bool) : Json
  | num (n : Int) : Json
  | str (s : String) : Json
  | arr (xs : List Json) : Json
  | obj (fields : List (String × Json)) : Json

/-- An uploaded PDF file: the widget exposes `.name` and `.getvalue()` (bytes). -/
structure PDFFile where
  name : String
  content : List Nat
deriving DecidableEq

/-- User-visible messages emitted by `st.error` / `st.info`. -/
inductive UIMsg where
  | error (msg : String) : UIMsg
  | info (msg : String) : UIMsg
deriving DecidableEq

/-- Outcome of one real remote invocation: `exc m` models
`model.generate_content` raising an exception with message `m`;
`reply (Except.error m)` models a returned `response.text` that is not
valid JSON, so `json.loads` raises `m`; `reply (Except.ok j)` models a
valid JSON reply parsing to `j`. -/
inductive GeminiOutcome where
  | exc (msg : String) : GeminiOutcome
  | reply (r : Except String Json) : GeminiOutcome

/-- Environment oracles for the external libraries and the remote service.
`pdfParse` is deterministic in the file bytes; `gemini` is indexed by the
invocation count so successive real calls may behave differently, and
receives the prompt string that the code sends. -/
structure Env where
  pdfParse : List Nat → Except String (List (Option String))
  gemini : Nat → String → GeminiOutcome

/-- State carried across script re-runs within one session. -/
structure RunState where
  analysis_result : Option Json
  last_file_name : Option String
  extractCache : List (List Nat × String)
  analyzeCache : Option (Option Json)
  geminiCalls : Nat

/-- Initial state: both session entries are initialized to `None`
(lines 145-148) and both caches are empty. -/
def initState : RunState :=
  { analysis_result := none, last_file_name := none,
    extractCache := [], analyzeCache := none, geminiCalls := 0 }

/-- Loop body of `extract_text_from_pdf` (lines 60-63): append
`page_text + "\n"` when `page_text` is truthy, i.e. neither `None` nor
the empty string. -/
def pageStep (full_text : String) (page_text : Option String) : String :=
  match page_text with
  | some t => if t ≠ "" then full_text ++ (t ++ "\n") else full_text
  | none => full_text

/-- The page loop of `extract_text_from_pdf`, starting from `full_text = ""`. -/
def extractPages (pages : List (Option String)) : String :=
  pages.foldl pageStep ""

/-- Body of `extract_text_from_pdf` (lines 49-67): `None` input yields `""`;
a parse exception is reported via `st.error` and yields `""`; otherwise the
pages are folded. Returns the text together with the emitted messages. -/
def extract_text_from_pdf (env : Env) (uploaded_file : Option PDFFile) :
    String × List UIMsg :=
  match uploaded_file with
  | none => ("", [])
  | some f =>
    match env.pdfParse f.content with
    | Except.ok pages => (extractPages pages, [])
    | Except.error e => ("", [UIMsg.error ("Error extracting text from PDF: " ++ e)])

/-- Everything of the f-string (lines 79-123) before `{_text_chunk}`,
byte for byte, up to but excluding the first `---` separator line. -/
def promptBeforeMarker : String :=
  "\n    You are an expert financial analyst AI named FinSight, powered by Google Gemini.\n    Your task is to analyze the financial text from a company\x27s report.\n    \n    **Instructions**:\n    1.  **Executive Summary**: Write a concise, professional summary of the company\x27s financial health, performance, and position based on the provided text. Highlight key strengths, weaknesses, opportunities, and threats if they are apparent.\n    2.  **Key Ratios**: Calculate the following financial ratios if the data is available. If a value cannot be calculated from the text, return \"N/A\".\n        - Current Ratio (Current Assets / Current Liabilities)\n        - Debt-to-Equity Ratio (Total Liabilities / Total Equity)\n        - Net Profit Margin (Net Income / Total Revenue)\n        - Return on Equity (ROE) (Net Income / Total Equity)\n    3.  **Data Extraction**: Extract the key figures for the most recent year available from the Income Statement and Balance Sheet. If a specific figure is not found, its value should be null.\n\n    Your entire response **MUST** be a single, valid JSON object. Do not include any text or markdown before or after the JSON object.\n\n    The required JSON structure is:\n    \x7b\n      \"executive_summary\": \"Your detailed summary here.\",\n      \"key_ratios\": \x7b\n        \"Current Ratio\": \"X.XX\",\n        \"Debt-to-Equity Ratio\": \"X.XX\",\n        \"Net Profit Margin\": \"XX.X%\",\n        \"Return on Equity (ROE)\": \"XX.X%\"\n      \x7d,\n      \"extracted_data\": \x7b\n        \"Income Statement\": \x7b\n          \"Total Revenue\": 1000000,\n          \"Net Income\": 100000\n        \x7d,\n        \"Balance Sheet\": \x7b\n          \"Total Current Assets\": 500000,\n          \"Total Current Liabilities\": 250000,\n          \"Total Liabilities\": 400000,\n          \"Total Stockholders’ Equity\": 600000\n        \x7d\n      \x7d\n    \x7d\n    \n    **Financial Text to Analyze**:\n    "

/-- Everything of the f-string after the closing `---` separator. -/
def promptAfterMarker : String :=
  "\n    \n    Now, provide the JSON response.\n    "

/-- The fixed text preceding `{_text_chunk}` in the f-string. -/
def promptPrefixStr : String := promptBeforeMarker ++ "---" ++ "\n    "

/-- The fixed text following `{_text_chunk}` in the f-string (note the
trailing space on the interpolation line). -/
def promptSuffixStr : String := " \n    " ++ "---" ++ promptAfterMarker

/-- The prompt f-string of `analyze_financial_text_with_gemini`
(lines 79-123): fixed instruction text with the extracted text
interpolated between the two `---` separator lines. -/
def prompt ( _text_chunk : String) : String :=
  promptPrefixStr ++ _text_chunk ++ promptSuffixStr

/-- Body of `analyze_financial_text_with_gemini` (lines 124-137), minus
the `st.cache_data` wrapper: build the prompt, perform the remote call at
invocation index `callIdx`; any exception (network failure or
`json.loads` failure) is reported via `st.error` and yields `None`. -/
def analyze_financial_text_with_gemini (env : Env) (callIdx : Nat)
    ( _text_chunk : String) : Option Json × List UIMsg :=
  match env.gemini callIdx (prompt _text_chunk) with
  | GeminiOutcome.exc e =>
      (none, [UIMsg.error ("Error during AI analysis with Gemini: " ++ e)])
  | GeminiOutcome.reply (Except.error e) =>
      (none, [UIMsg.error ("Error during AI analysis with Gemini: " ++ e)])
  | GeminiOutcome.reply (Except.ok j) => (some j, [])

/-- Association-list lookup for the extraction cache. -/
def lookupCache : List (List Nat × String) → List Nat → Option String
  | [], _ => none
  | e :: rest, key => if e.1 = key then some e.2 else lookupCache rest key

/-- The `st.cache_data` wrapper around `analyze_financial_text_with_gemini`.
Because the only parameter is named `_text_chunk`, Streamlit excludes it
from the cache key, so the cache is a single slot: on a hit the stored
value is returned with no remote call and no messages; on a miss the body
runs once and its result (even `None`) is stored. -/
def analyze_cached (env : Env) (text : String) (s : RunState) :
    Option Json × RunState × List UIMsg :=
  match s.analyzeCache with
  | some r => (r, s, [])
  | none =>
    let out := analyze_financial_text_with_gemini env s.geminiCalls text
    (out.1,
     { s with analyzeCache := some out.1, geminiCalls := s.geminiCalls + 1 },
     out.2)

/-- The `st.cache_data` wrapper around `extract_text_from_pdf`, keyed by
the file bytes: on a hit the cached text is returned and no message is
re-emitted; on a miss the body runs and the result is stored. -/
def extractStep (env : Env) (f : PDFFile) (s : RunState) :
    String × RunState × List UIMsg :=
  match lookupCache s.extractCache f.content with
  | some t => (t, s, [])
  | none =>
    let out := extract_text_from_pdf env (some f)
    (out.1,
     { s with extractCache := (f.content, out.1) :: s.extractCache },
     out.2)

/-- Upload handling (lines 156-160): when the stored `last_file_name`
differs from the name of the uploaded file, clear `analysis_result` and
store the new name. -/
def uploadStep (f : PDFFile) (s : RunState) : RunState :=
  if s.last_file_name ≠ some f.name then
    { s with analysis_result := none, last_file_name := some f.name }
  else s

/-- Message of line 169. -/
def insufficientTextMsg : UIMsg :=
  UIMsg.error "Could not extract sufficient text from the document. Please try another file."

/-- One script re-run below the configuration block (lines 156-170).
`uploaded_file` is the current value of the upload widget and `clicked`
is whether this re-run was triggered by the Analyze button. The guard of
line 164 is `full_text and len(full_text) > 100`. -/
def runScript (env : Env) (uploaded_file : Option PDFFile) (clicked : Bool)
    (s : RunState) : RunState × List UIMsg :=
  match uploaded_file with
  | none => (s, [])
  | some f =>
    let s1 := uploadStep f s
    if clicked then
      let e := extractStep env f s1
      if e.1 ≠ "" ∧ e.1.length > 100 then
        let a := analyze_cached env e.1 e.2.1
        ({ a.2.1 with analysis_result := a.1 }, e.2.2 ++ a.2.2)
      else
        ({ e.2.1 with analysis_result := none }, e.2.2 ++ [insufficientTextMsg])
    else (s1, [])

/-- Messages of lines 41-42, shown when the API key is missing. -/
def missingKeyMsgs : List UIMsg :=
  [UIMsg.error "⚠️ **Warning:** Google API key not found in Streamlit secrets.",
   UIMsg.info "Please add your Google API key to your Streamlit secrets to continue. Name it `google_api_key`."]

/-- One full script re-run including the configuration block
(lines 38-43): when `st.secrets` has no `google_api_key` (a `KeyError`,
or a `FileNotFoundError` when no secrets file exists, both modelled by
`none`), the two messages are shown and `st.stop()` halts the script
before any of the main interface runs. -/
def runApp (secret : Option String) (env : Env) (uploaded_file : Option PDFFile)
    (clicked : Bool) (s : RunState) : RunState × List UIMsg :=
  match secret with
  | none => (s, missingKeyMsgs)
  | some _ => runScript env uploaded_file clicked s

/-- States reachable from the initial state by script re-runs with
arbitrary widget inputs, against a fixed environment. -/
inductive Reachable (env : Env) : RunState → Prop where
  | start : Reachable env initState
  | step (u : Option PDFFile) (c : Bool) {s : RunState} :
      Reachable env s → Reachable env (runScript env u c s).1

/-! Helper lemmas about the step functions. -/

theorem uploadStep_analyzeCache (f : PDFFile) (s : RunState) :
    (uploadStep f s).analyzeCache = s.analyzeCache := by
  simp only [uploadStep]; split <;> rfl

theorem uploadStep_geminiCalls (f : PDFFile) (s : RunState) :
    (uploadStep f s).geminiCalls = s.geminiCalls := by
  simp only [uploadStep]; split <;> rfl

theorem uploadStep_result_cases (f : PDFFile) (s : RunState) :
    (uploadStep f s).analysis_result = none
    ∨ (uploadStep f s).analysis_result = s.analysis_result := by
  simp only [uploadStep]; split
  · exact Or.inl rfl
  · exact Or.inr rfl

theorem extractStep_analyzeCache (env : Env) (f : PDFFile) (s : RunState) :
    (extractStep env f s).2.1.analyzeCache = s.analyzeCache := by
  simp only [extractStep]; split <;> rfl

theorem extractStep_geminiCalls (env : Env) (f : PDFFile) (s : RunState) :
    (extractStep env f s).2.1.geminiCalls = s.geminiCalls := by
  simp only [extractStep]; split <;> rfl

theorem extractStep_analysis_result (env : Env) (f : PDFFile) (s : RunState) :
    (extractStep env f s).2.1.analysis_result = s.analysis_result := by
  simp only [extractStep]; split <;> rfl

theorem analyze_cached_hit (env : Env) (text : String) (s : RunState)
    (r : Option Json) (h : s.analyzeCache = some r) :
    analyze_cached env text s = (r, s, []) := by
  simp only [analyze_cached, h]

theorem analyze_cached_miss (env : Env) (text : String) (s : RunState)
    (h : s.analyzeCache = none) :
    analyze_cached env text s =
      ((analyze_financial_text_with_gemini env s.geminiCalls text).1,
       { s with
          analyzeCache := some (analyze_financial_text_with_gemini env s.geminiCalls text).1,
          geminiCalls := s.geminiCalls + 1 },
       (analyze_financial_text_with_gemini env s.geminiCalls text).2) := by
  simp only [analyze_cached, h]

theorem pageStep_split (acc : String) (p : Option String) :
    pageStep acc p = acc ++ pageStep "" p := by
  cases p with
  | none => exact (String.append_empty acc).symm
  | some t =>
    simp only [pageStep]
    split
    · rw [String.empty_append]
    · exact (String.append_empty acc).symm

theorem foldl_str_split {α : Type} (f : String → α → String)
    (hf : ∀ acc x, f acc x = acc ++ f "" x) :
    ∀ (l : List α) (acc : String), l.foldl f acc = acc ++ l.foldl f ""
  | [], acc => (String.append_empty acc).symm
  | x :: l, acc => by
    rw [List.foldl_cons, List.foldl_cons, foldl_str_split f hf l (f acc x),
      foldl_str_split f hf l (f "" x), hf acc x, String.append_assoc]

theorem extractPages_cons (p : Option String) (l : List (Option String)) :
    extractPages (p :: l) = pageStep "" p ++ extractPages l := by
  simp only [extractPages, List.foldl_cons]
  rw [foldl_str_split pageStep pageStep_split l (pageStep "" p)]

theorem extractPages_append (l₁ l₂ : List (Option String)) :
    extractPages (l₁ ++ l₂) = extractPages l₁ ++ extractPages l₂ := by
  simp only [extractPages, List.foldl_append]
  exact foldl_str_split pageStep pageStep_split l₂ (List.foldl pageStep "" l₁)

theorem join_cons (s : String) (l : List String) :
    String.join (s :: l) = s ++ String.join l := by
  simp only [String.join, List.foldl_cons]
  rw [foldl_str_split (fun r s => r ++ s)
      (fun acc x => by show acc ++ x = acc ++ ("" ++ x); rw [String.empty_append])
      l ("" ++ s),
    String.empty_append]

theorem extractPages_map_some (texts : List String) (hall : ∀ t ∈ texts, t ≠ "") :
    extractPages (texts.map some) = String.join (texts.map (fun t => t ++ "\n")) := by
  induction texts with
  | nil => rfl
  | cons t ts ih =>
    rw [List.map_cons, extractPages_cons, List.map_cons, join_cons,
      ih (fun x hx => hall x (List.mem_cons_of_mem t hx))]
    have ht : t ≠ "" := hall t (List.mem_cons_self t ts)
    simp only [pageStep]
    rw [if_pos ht, String.empty_append]

/-! Claim theorems. -/

/-- Claim C3: for a PDF whose pages each yield text, the extracted text is
the in-order concatenation of each page text followed by a newline, and a
page yielding no extractable text (a `None` or an empty string from
`page.extract_text()`) contributes nothing, wherever it occurs. -/
theorem c3_extract_concatenates_pages_in_order
    (texts : List String) (hall : ∀ t ∈ texts, t ≠ "")
    (pre post : List (Option String)) (p : Option String)
    (hp : p = none ∨ p = some "") :
    extractPages (texts.map some) = String.join (texts.map (fun t => t ++ "\n"))
    ∧ extractPages (pre ++ p :: post) = extractPages (pre ++ post) := by
  refine ⟨extractPages_map_some texts hall, ?_⟩
  have hstep : pageStep "" p = "" := by
    rcases hp with h | h <;> rw [h] <;> rfl
  rw [extractPages_append, extractPages_append, extractPages_cons, hstep,
    String.empty_append]

/-- Witness for C3, at the two-page example of the specification. -/
theorem c3_witness :
    extractPages (["Revenue: 100", "Net Income: 10"].map some)
      = String.join (["Revenue: 100", "Net Income: 10"].map (fun t => t ++ "\n"))
    ∧ extractPages ([some "Revenue: 100"] ++ none :: [some "Net Income: 10"])
      = extractPages ([some "Revenue: 100"] ++ [some "Net Income: 10"]) :=
  c3_extract_concatenates_pages_in_order ["Revenue: 100", "Net Income: 10"]
    (by decide) [some "Revenue: 100"] [some "Net Income: 10"] none (Or.inl rfl)

/-- Claim C8: the prompt builder is a pure function whose output embeds the
given extracted text verbatim, placed between the two `---` separator
lines of the template. -/
theorem c8_prompt_embeds_text_between_markers (t : String) :
    prompt t
      = (promptBeforeMarker ++ "---" ++ "\n    ") ++ t
          ++ (" \n    " ++ "---" ++ promptAfterMarker) := rfl

/-- Claim C6: whenever PDF parsing fails with exception `e`, the loader
reports the error to the user and returns the empty string instead of
raising; a missing file or an empty page list likewise yields `""`. -/
theorem c6_extract_failure_reports_error_returns_empty
    (env : Env) (f : PDFFile) (e : String)
    (herr : env.pdfParse f.content = Except.error e) :
    extract_text_from_pdf env (some f)
        = ("", [UIMsg.error ("Error extracting text from PDF: " ++ e)])
    ∧ extract_text_from_pdf env none = ("", [])
    ∧ extractPages [] = "" := by
  refine ⟨?_, rfl, rfl⟩
  simp only [extract_text_from_pdf, herr]

/-- Witness for C6, on an environment whose parser always fails. -/
theorem c6_witness :
    extract_text_from_pdf
        { pdfParse := fun _ => Except.error "corrupt file",
          gemini := fun _ _ => GeminiOutcome.exc "unused" }
        (some ⟨"bad.pdf", [9]⟩)
      = ("", [UIMsg.error ("Error extracting text from PDF: " ++ "corrupt file")])
    ∧ extract_text_from_pdf
        { pdfParse := fun _ => Except.error "corrupt file",
          gemini := fun _ _ => GeminiOutcome.exc "unused" } none = ("", [])
    ∧ extractPages [] = "" :=
  c6_extract_failure_reports_error_returns_empty
    { pdfParse := fun _ => Except.error "corrupt file",
      gemini := fun _ _ => GeminiOutcome.exc "unused" }
    ⟨"bad.pdf", [9]⟩ "corrupt file" rfl

/-- Claim C7: when the API credential is absent, the startup block shows
the configuration error and `st.stop()` halts the script: the rest of the
interface never runs, the state (caches, session entries, remote-call
count) is untouched, and only the configuration messages are shown. -/
theorem c7_missing_api_key_halts_startup
    (env : Env) (u : Option PDFFile) (c : Bool) (s : RunState) :
    runApp none env u c s = (s, missingKeyMsgs)
    ∧ (runApp none env u c s).1.geminiCalls = s.geminiCalls := ⟨rfl, rfl⟩

/-- Claim C5: on an upload whose name differs from the stored identity,
the stored result is cleared and the identity updated, and the whole
re-run behaves exactly as if started from that cleared state, so any
analysis in the same re-run happens after the clearing. -/
theorem c5_new_upload_identity_clears_result_first
    (env : Env) (f : PDFFile) (c : Bool) (s : RunState)
    (hdiff : s.last_file_name ≠ some f.name) :
    (uploadStep f s).analysis_result = none
    ∧ (uploadStep f s).last_file_name = some f.name
    ∧ runScript env (some f) c s
        = runScript env (some f) c
            { s with analysis_result := none, last_file_name := some f.name } := by
  have h1 : uploadStep f s
      = { s with analysis_result := none, last_file_name := some f.name } := by
    simp only [uploadStep]; rw [if_pos hdiff]
  have h2 : uploadStep f
      { s with analysis_result := none, last_file_name := some f.name }
      = { s with analysis_result := none, last_file_name := some f.name } := by
    simp only [uploadStep]
    rw [if_neg]
    intro hne
    exact hne rfl
  refine ⟨by rw [h1], by rw [h1], ?_⟩
  simp only [runScript, h1, h2]

/-- Witness for C5, from the initial state (stored identity `None`). -/
theorem c5_witness :
    (uploadStep ⟨"a.pdf", [1]⟩ initState).analysis_result = none
    ∧ (uploadStep ⟨"a.pdf", [1]⟩ initState).last_file_name = some "a.pdf"
    ∧ runScript
        { pdfParse := fun _ => Except.ok [], gemini := fun _ _ => GeminiOutcome.exc "unused" }
        (some ⟨"a.pdf", [1]⟩) false initState
      = runScript
          { pdfParse := fun _ => Except.ok [], gemini := fun _ _ => GeminiOutcome.exc "unused" }
          (some ⟨"a.pdf", [1]⟩) false
          { initState with analysis_result := none, last_file_name := some "a.pdf" } :=
  c5_new_upload_identity_clears_result_first
    { pdfParse := fun _ => Except.ok [], gemini := fun _ _ => GeminiOutcome.exc "unused" }
    ⟨"a.pdf", [1]⟩ false initState (by decide)

/-- Claim C9: the upload identity is the file name alone: re-uploading a
file with the stored name leaves the session state unchanged, whatever
the byte content, so a same-name different-content upload does not clear
the stored result. -/
theorem c9_upload_identity_is_name_only
    (env : Env) (s : RunState) (nm : String) (c₂ : List Nat)
    (hsame : s.last_file_name = some nm) :
    uploadStep ⟨nm, c₂⟩ s = s
    ∧ runScript env (some ⟨nm, c₂⟩) false s = (s, []) := by
  have h : uploadStep ⟨nm, c₂⟩ s = s := by
    simp only [uploadStep]
    rw [if_neg]
    intro hne
    exact hne (by rw [hsame])
  exact ⟨h, by simp only [runScript, h]; rw [if_neg Bool.false_ne_true]⟩

/-- Witness for C9: same stored name, different content, displayed result
kept. -/
theorem c9_witness :
    uploadStep ⟨"a.pdf", [2]⟩
        { analysis_result := some (Json.str "kept"), last_file_name := some "a.pdf",
          extractCache := [], analyzeCache := some (some (Json.str "kept")),
          geminiCalls := 1 }
      = { analysis_result := some (Json.str "kept"), last_file_name := some "a.pdf",
          extractCache := [], analyzeCache := some (some (Json.str "kept")),
          geminiCalls := 1 }
    ∧ runScript
        { pdfParse := fun _ => Except.ok [], gemini := fun _ _ => GeminiOutcome.exc "unused" }
        (some ⟨"a.pdf", [2]⟩) false
        { analysis_result := some (Json.str "kept"), last_file_name := some "a.pdf",
          extractCache := [], analyzeCache := some (some (Json.str "kept")),
          geminiCalls := 1 }
      = ({ analysis_result := some (Json.str "kept"), last_file_name := some "a.pdf",
           extractCache := [], analyzeCache := some (some (Json.str "kept")),
           geminiCalls := 1 }, []) :=
  c9_upload_identity_is_name_only
    { pdfParse := fun _ => Except.ok [], gemini := fun _ _ => GeminiOutcome.exc "unused" }
    { analysis_result := some (Json.str "kept"), last_file_name := some "a.pdf",
      extractCache := [], analyzeCache := some (some (Json.str "kept")),
      geminiCalls := 1 }
    "a.pdf" [2] rfl

/-! The two branches of the Analyze click, as rewriting lemmas. -/

theorem runScript_short_branch (env : Env) (f : PDFFile) (s : RunState)
    (h : ¬((extractStep env f (uploadStep f s)).1 ≠ ""
          ∧ (extractStep env f (uploadStep f s)).1.length > 100)) :
    runScript env (some f) true s =
      ({ (extractStep env f (uploadStep f s)).2.1 with analysis_result := none },
       (extractStep env f (uploadStep f s)).2.2 ++ [insufficientTextMsg]) := by
  simp only [runScript]
  rw [if_pos trivial, if_neg h]

theorem runScript_analyze_branch (env : Env) (f : PDFFile) (s : RunState)
    (h : (extractStep env f (uploadStep f s)).1 ≠ ""
        ∧ (extractStep env f (uploadStep f s)).1.length > 100) :
    runScript env (some f) true s =
      ({ (analyze_cached env (extractStep env f (uploadStep f s)).1
            (extractStep env f (uploadStep f s)).2.1).2.1 with
          analysis_result :=
            (analyze_cached env (extractStep env f (uploadStep f s)).1
              (extractStep env f (uploadStep f s)).2.1).1 },
       (extractStep env f (uploadStep f s)).2.2
         ++ (analyze_cached env (extractStep env f (uploadStep f s)).1
              (extractStep env f (uploadStep f s)).2.1).2.2) := by
  simp only [runScript]
  rw [if_pos trivial, if_pos h]

/-- Claim C4: an Analyze click whose extracted text is at most 100
characters (in particular, empty) performs no remote call: the invocation
counter and the analysis cache are untouched, and the insufficient-text
error is shown. -/
theorem c4_insufficient_text_skips_remote_call
    (env : Env) (f : PDFFile) (s : RunState)
    (hshort : (extractStep env f (uploadStep f s)).1.length ≤ 100) :
    (runScript env (some f) true s).1.geminiCalls = s.geminiCalls
    ∧ (runScript env (some f) true s).1.analyzeCache = s.analyzeCache
    ∧ insufficientTextMsg ∈ (runScript env (some f) true s).2 := by
  have hneg : ¬((extractStep env f (uploadStep f s)).1 ≠ ""
      ∧ (extractStep env f (uploadStep f s)).1.length > 100) :=
    fun hc => absurd hc.2 (Nat.not_lt.mpr hshort)
  rw [runScript_short_branch env f s hneg]
  refine ⟨?_, ?_, ?_⟩
  · show (extractStep env f (uploadStep f s)).2.1.geminiCalls = s.geminiCalls
    rw [extractStep_geminiCalls, uploadStep_geminiCalls]
  · show (extractStep env f (uploadStep f s)).2.1.analyzeCache = s.analyzeCache
    rw [extractStep_analyzeCache, uploadStep_analyzeCache]
  · exact List.mem_append_right _ (List.mem_singleton_self _)

/-- Environment producing a nine-character page text, below the
length-100 threshold. -/
def shortEnv : Env :=
  { pdfParse := fun _ => Except.ok [some "too short"],
    gemini := fun _ _ => GeminiOutcome.exc "unused" }

/-- Witness for C4, from the initial state. -/
theorem c4_witness :
    (runScript shortEnv (some ⟨"s.pdf", [5]⟩) true initState).1.geminiCalls
        = initState.geminiCalls
    ∧ (runScript shortEnv (some ⟨"s.pdf", [5]⟩) true initState).1.analyzeCache
        = initState.analyzeCache
    ∧ insufficientTextMsg ∈ (runScript shortEnv (some ⟨"s.pdf", [5]⟩) true initState).2 :=
  c4_insufficient_text_skips_remote_call shortEnv ⟨"s.pdf", [5]⟩ initState (by decide)

/-- Claim C10: the insufficient-text error path of an Analyze click
overwrites the stored result with `None`, clearing any previously
displayed result, and shows the error. -/
theorem c10_insufficient_text_clears_stored_result
    (env : Env) (f : PDFFile) (s : RunState)
    (hshort : (extractStep env f (uploadStep f s)).1.length ≤ 100) :
    (runScript env (some f) true s).1.analysis_result = none
    ∧ insufficientTextMsg ∈ (runScript env (some f) true s).2 := by
  have hneg : ¬((extractStep env f (uploadStep f s)).1 ≠ ""
      ∧ (extractStep env f (uploadStep f s)).1.length > 100) :=
    fun hc => absurd hc.2 (Nat.not_lt.mpr hshort)
  rw [runScript_short_branch env f s hneg]
  exact ⟨rfl, List.mem_append_right _ (List.mem_singleton_self _)⟩

/-- Session state holding a previously displayed result for `d.pdf`. -/
def priorResultState : RunState :=
  { analysis_result := some (Json.str "old"), last_file_name := some "d.pdf",
    extractCache := [], analyzeCache := some (some (Json.str "old")),
    geminiCalls := 1 }

/-- Witness for C10: re-analyzing the same file now yields short text, and
the previously displayed result is cleared. -/
theorem c10_witness :
    (runScript shortEnv (some ⟨"d.pdf", [4]⟩) true priorResultState).1.analysis_result = none
    ∧ insufficientTextMsg
        ∈ (runScript shortEnv (some ⟨"d.pdf", [4]⟩) true priorResultState).2 :=
  c10_insufficient_text_clears_stored_result shortEnv ⟨"d.pdf", [4]⟩ priorResultState
    (by decide)

/-! Reachability invariant: the session can only hold a result that the
single-slot analysis cache recorded as a success. In particular, while
the cache is empty (no remote invocation has completed yet), the stored
result is necessarily `None`. -/

def ResultCacheInv (s : RunState) : Prop :=
  (s.analyzeCache = none ∨ s.analyzeCache = some none) → s.analysis_result = none

theorem resultCacheInv_initState : ResultCacheInv initState := fun _ => rfl

theorem resultCacheInv_step (env : Env) (u : Option PDFFile) (c : Bool)
    (s : RunState) (h : ResultCacheInv s) : ResultCacheInv (runScript env u c s).1 := by
  cases u with
  | none => exact h
  | some f =>
    cases c with
    | false =>
      have hrun : runScript env (some f) false s = (uploadStep f s, []) := by
        simp only [runScript]
        rw [if_neg Bool.false_ne_true]
      rw [hrun]
      intro hbad
      rw [uploadStep_analyzeCache] at hbad
      rcases uploadStep_result_cases f s with h0 | h0
      · exact h0
      · rw [h0]; exact h hbad
    | true =>
      by_cases hlen : ((extractStep env f (uploadStep f s)).1 ≠ ""
          ∧ (extractStep env f (uploadStep f s)).1.length > 100)
      · rw [runScript_analyze_branch env f s hlen]
        have hc2 : (extractStep env f (uploadStep f s)).2.1.analyzeCache = s.analyzeCache := by
          rw [extractStep_analyzeCache, uploadStep_analyzeCache]
        cases hcache : (extractStep env f (uploadStep f s)).2.1.analyzeCache with
        | some r =>
          rw [analyze_cached_hit env _ _ r hcache]
          intro hbad
          have hbad2 : (extractStep env f (uploadStep f s)).2.1.analyzeCache = none
              ∨ (extractStep env f (uploadStep f s)).2.1.analyzeCache = some none := hbad
          rw [hcache] at hbad2
          rcases hbad2 with hb | hb
          · exact absurd hb (Option.some_ne_none r)
          · exact Option.some_injective _ hb
        | none =>
          rw [analyze_cached_miss env _ _ hcache]
          intro hbad
          have hbad2 : (some (analyze_financial_text_with_gemini env
              (extractStep env f (uploadStep f s)).2.1.geminiCalls
              (extractStep env f (uploadStep f s)).1).1 = none
            ∨ some (analyze_financial_text_with_gemini env
              (extractStep env f (uploadStep f s)).2.1.geminiCalls
              (extractStep env f (uploadStep f s)).1).1 = some none) := hbad
          rcases hbad2 with hb | hb
          · exact absurd hb (Option.some_ne_none _)
          · exact Option.some_injective _ hb
      · rw [runScript_short_branch env f s hlen]
        intro _
        rfl

theorem reachable_resultCacheInv (env : Env) (s : RunState)
    (h : Reachable env s) : ResultCacheInv s := by
  induction h with
  | start => exact resultCacheInv_initState
  | step u c _ ih => exact resultCacheInv_step env u c _ ih

/-- Claim C2: in any reachable session state, an Analyze click whose remote
invocation fails (the request raises, or the reply is not valid JSON)
shows the analysis error, stores no result, and leaves the previously
stored result exactly as it was. -/
theorem c2_failed_analysis_shows_error_and_preserves_prior_result
    (env : Env) (f : PDFFile) (s : RunState) (m : String)
    (hreach : Reachable env s)
    (hmiss : s.analyzeCache = none)
    (hlen : (extractStep env f (uploadStep f s)).1 ≠ ""
        ∧ (extractStep env f (uploadStep f s)).1.length > 100)
    (hfail : env.gemini s.geminiCalls (prompt (extractStep env f (uploadStep f s)).1)
          = GeminiOutcome.exc m
        ∨ env.gemini s.geminiCalls (prompt (extractStep env f (uploadStep f s)).1)
          = GeminiOutcome.reply (Except.error m)) :
    (runScript env (some f) true s).1.analysis_result = none
    ∧ (runScript env (some f) true s).1.analysis_result = s.analysis_result
    ∧ UIMsg.error ("Error during AI analysis with Gemini: " ++ m)
        ∈ (runScript env (some f) true s).2 := by
  have hres : s.analysis_result = none :=
    reachable_resultCacheInv env s hreach (Or.inl hmiss)
  have hc2 : (extractStep env f (uploadStep f s)).2.1.analyzeCache = none := by
    rw [extractStep_analyzeCache, uploadStep_analyzeCache]; exact hmiss
  have hg2 : (extractStep env f (uploadStep f s)).2.1.geminiCalls = s.geminiCalls := by
    rw [extractStep_geminiCalls, uploadStep_geminiCalls]
  have hbody : analyze_financial_text_with_gemini env
      (extractStep env f (uploadStep f s)).2.1.geminiCalls
      (extractStep env f (uploadStep f s)).1
      = (none, [UIMsg.error ("Error during AI analysis with Gemini: " ++ m)]) := by
    rw [hg2]
    rcases hfail with hf | hf <;> simp only [analyze_financial_text_with_gemini, hf]
  rw [runScript_analyze_branch env f s hlen, analyze_cached_miss env _ _ hc2, hbody]
  refine ⟨rfl, by rw [hres], ?_⟩
  exact List.mem_append_right _ (List.mem_singleton_self _)

/-- Environment whose single page is 101 characters long and whose remote
service always raises. -/
def failEnv : Env :=
  { pdfParse := fun _ => Except.ok [some (String.mk (List.replicate 101 'c'))],
    gemini := fun _ _ => GeminiOutcome.exc "boom" }

/-- Witness for C2, from the initial (reachable) state. -/
theorem c2_witness :
    (runScript failEnv (some ⟨"c.pdf", [3]⟩) true initState).1.analysis_result = none
    ∧ (runScript failEnv (some ⟨"c.pdf", [3]⟩) true initState).1.analysis_result
        = initState.analysis_result
    ∧ UIMsg.error ("Error during AI analysis with Gemini: " ++ "boom")
        ∈ (runScript failEnv (some ⟨"c.pdf", [3]⟩) true initState).2 :=
  c2_failed_analysis_shows_error_and_preserves_prior_result failEnv
    ⟨"c.pdf", [3]⟩ initState "boom" Reachable.start rfl
    (by constructor <;> decide) (Or.inl rfl)

/-! Concrete trace refuting content-keyed analysis caching. The Python
function `analyze_financial_text_with_gemini` names its only parameter
`_text_chunk`; `st.cache_data` excludes underscore-prefixed parameters
from the cache key, so the cache has one slot for every text value,
although the comments on lines 73-74 and 165 claim content-keyed caching. -/

/-- Extracted text of the first file: 101 copies of the letter a. -/
def textA : String := String.mk (List.replicate 101 'a')

/-- Extracted text of the second file: 101 copies of the letter b. -/
def textB : String := String.mk (List.replicate 101 'b')

/-- Environment: file bytes `[1]` extract to `textA`, anything else to
`textB`; the first remote invocation replies `first-result`, any later
one replies `second-result`. -/
def c1Env : Env :=
  { pdfParse := fun c =>
      if c = [1] then Except.ok [some textA] else Except.ok [some textB],
    gemini := fun n _ =>
      if n = 0 then GeminiOutcome.reply (Except.ok (Json.str "first-result"))
      else GeminiOutcome.reply (Except.ok (Json.str "second-result")) }

/-- Session trace: upload `a.pdf`, click Analyze, upload `b.pdf` (distinct
name and bytes), click Analyze again. -/
def c1AfterUploadA : RunState :=
  (runScript c1Env (some ⟨"a.pdf", [1]⟩) false initState).1

/-- State after the first Analyze click. -/
def c1AfterAnalyzeA : RunState :=
  (runScript c1Env (some ⟨"a.pdf", [1]⟩) true c1AfterUploadA).1

/-- State after uploading the second, different file. -/
def c1AfterUploadB : RunState :=
  (runScript c1Env (some ⟨"b.pdf", [2]⟩) false c1AfterAnalyzeA).1

/-- State after the second Analyze click, on the second file. -/
def c1AfterAnalyzeB : RunState :=
  (runScript c1Env (some ⟨"b.pdf", [2]⟩) true c1AfterUploadB).1

/-- Claim C1 is violated by the code: the two files extract to distinct
texts, the first Analyze performs the one and only remote invocation, and
the second Analyze — although it runs on `textB`, as the extraction cache
shows — performs no remote invocation at all and stores the result of the
first text. Distinct texts do not each get their own invocation. -/
theorem c1_analysis_cache_ignores_text :
    textA ≠ textB
    ∧ c1AfterAnalyzeA.geminiCalls = 1
    ∧ c1AfterAnalyzeA.analysis_result = some (Json.str "first-result")
    ∧ lookupCache c1AfterAnalyzeB.extractCache [2] = some (textB ++ "\n")
    ∧ c1AfterAnalyzeB.geminiCalls = 1
    ∧ c1AfterAnalyzeB.analysis_result = some (Json.str "first-result") :=
  ⟨by decide, rfl, rfl, by decide, rfl, rfl⟩

end FinSight
